import Mathlib

/-!
Verification development for the Nifty-500 scanner (`src/app.py`).

The Python source is shallowly embedded: pandas `DataFrame`s of price
history become a structure of column lists, `yf.Ticker(...).info`
dictionaries become a structure of optional rational attributes, the
balance-sheet / cash-flow frames become structures of optional figures,
and floating point arithmetic is modelled over `ℚ` with explicit
case-splits where float semantics (NaN / inf from division by zero)
steer a branch.  Fallible fetches are modelled as `Option` inputs: `none`
is the `except:` path of the corresponding loader.
-/

namespace NiftyScanner

/-! ### Kernel-computable rational arithmetic

The library's `Rat` field operations are irreducible, so a `decide`
witness cannot evaluate them.  The embedding computes with the wrappers
below, defined on numerator and denominator through `Rat.divInt` (which
the kernel does reduce); each wrapper is proved equal to the
corresponding field operation, so the general theorems reason over the
ordinary `ℚ` algebra. -/

def qadd (a b : ℚ) : ℚ := Rat.divInt (a.num * b.den + b.num * a.den) (a.den * b.den)

def qsub (a b : ℚ) : ℚ := Rat.divInt (a.num * b.den - b.num * a.den) (a.den * b.den)

def qmul (a b : ℚ) : ℚ := Rat.divInt (a.num * b.num) (a.den * b.den)

def qdiv (a b : ℚ) : ℚ := Rat.divInt (a.num * b.den) (a.den * b.num)

def qneg (a : ℚ) : ℚ := Rat.divInt (-a.num) a.den

/-- `max a b`, picking the first argument on ties as Python's `max`
and pandas' `clip` do (the value is the same either way). -/
def qmax (a b : ℚ) : ℚ := if a < b then b else a

/-- `min a b`, picking the first argument on ties. -/
def qmin (a b : ℚ) : ℚ := if b < a then b else a

theorem qadd_eq (a b : ℚ) : qadd a b = a + b := by
  rw [qadd, Rat.divInt_eq_div]
  conv_rhs => rw [← Rat.num_div_den a, ← Rat.num_div_den b]
  have ha : ((a.den : ℚ)) ≠ 0 := by exact_mod_cast a.den_ne_zero
  have hb : ((b.den : ℚ)) ≠ 0 := by exact_mod_cast b.den_ne_zero
  field_simp
  try ring

theorem qsub_eq (a b : ℚ) : qsub a b = a - b := by
  rw [qsub, Rat.divInt_eq_div]
  conv_rhs => rw [← Rat.num_div_den a, ← Rat.num_div_den b]
  have ha : ((a.den : ℚ)) ≠ 0 := by exact_mod_cast a.den_ne_zero
  have hb : ((b.den : ℚ)) ≠ 0 := by exact_mod_cast b.den_ne_zero
  field_simp
  try ring

theorem qmul_eq (a b : ℚ) : qmul a b = a * b := by
  rw [qmul, Rat.divInt_eq_div]
  conv_rhs => rw [← Rat.num_div_den a, ← Rat.num_div_den b]
  have ha : ((a.den : ℚ)) ≠ 0 := by exact_mod_cast a.den_ne_zero
  have hb : ((b.den : ℚ)) ≠ 0 := by exact_mod_cast b.den_ne_zero
  field_simp
  try ring

theorem qneg_eq (a : ℚ) : qneg a = -a := by
  rw [qneg, Rat.divInt_eq_div]
  conv_rhs => rw [← Rat.num_div_den a]
  push_cast
  ring

theorem qdiv_eq (a b : ℚ) : qdiv a b = a / b := by
  by_cases hb : b = 0
  · subst hb
    simp [qdiv, Rat.divInt_eq_div]
  · rw [qdiv, Rat.divInt_eq_div]
    conv_rhs => rw [← Rat.num_div_den a, ← Rat.num_div_den b]
    have ha : ((a.den : ℚ)) ≠ 0 := by exact_mod_cast a.den_ne_zero
    have hb' : ((b.den : ℚ)) ≠ 0 := by exact_mod_cast b.den_ne_zero
    have hbn : ((b.num : ℚ)) ≠ 0 := by
      exact_mod_cast fun h => hb (Rat.num_eq_zero.mp h)
    field_simp

theorem qmax_eq (a b : ℚ) : qmax a b = max a b := by
  rw [qmax, max_def]
  split_ifs with h1 h2 h2
  · rfl
  · exact absurd (le_of_lt h1) h2
  · exact le_antisymm h2 (le_of_not_lt h1)
  · rfl

theorem qmin_eq (a b : ℚ) : qmin a b = min a b := by
  rw [qmin, min_def]
  split_ifs with h1 h2 h2
  · exact absurd h2 (not_le_of_lt h1)
  · rfl
  · rfl
  · exact absurd (le_of_not_lt h1) h2

/-! ### Decimal formatting (Python `f"{x:.1f}"` / `f"{x:.2f}"`) -/

/-- Round a rational to the nearest integer, ties to even (as Python's
float formatting does), computed on numerator and denominator:
`f = ⌊q⌋`, `t/den` the fractional part. -/
def roundHalfEven (q : ℚ) : ℤ :=
  let n := q.num
  let d := (q.den : ℤ)
  let f := Int.fdiv n d
  let t := n - f * d
  if 2 * t < d then f
  else if d < 2 * t then f + 1
  else if f % 2 = 0 then f else f + 1

/-- Left-pad a digit string with zeros to length `n`. -/
def padLeftZeros (s : String) (n : ℕ) : String :=
  String.mk (List.replicate (n - s.length) '0') ++ s

/-- Ten to a natural power, as a rational. -/
def qpowTen (p : ℕ) : ℚ := Rat.divInt (Int.ofNat (10 ^ p)) 1

/-- Fixed-point decimal rendering with `prec` fractional digits,
modelling Python's format spec `.1f` / `.2f`. -/
def fixedStr (prec : ℕ) (q : ℚ) : String :=
  let n := roundHalfEven (qmul q (qpowTen prec))
  let sign := if n < 0 then "-" else ""
  let m := n.natAbs
  if prec = 0 then sign ++ toString m
  else sign ++ toString (m / 10 ^ prec) ++ "." ++
       padLeftZeros (toString (m % 10 ^ prec)) prec

/-- `symbol.replace(".NS", "")` on the character list: every occurrence
of `.NS` is removed, scanning left to right (the library's
`String.replace` does not reduce in the kernel, so the loop is spelled
out structurally). -/
def stripNS : List Char → List Char
  | [] => []
  | '.' :: 'N' :: 'S' :: rest => stripNS rest
  | c :: rest => c :: stripNS rest

/-- `symbol.replace(".NS", "")`. -/
def replaceNS (s : String) : String := String.mk (stripNS s.data)

/-! ### Price history (`df` in `app.py`)

Only the `Close` column is read by the scoring code; `SMA50` and `SMA200`
are the columns `technical_score` writes into its argument
(`df['SMA50'] = ...`, line 101).  A `none` entry of an SMA column is a
pandas `NaN`; a `none` column is a column the frame does not have. -/

structure DataFrame where
  close : List ℚ
  sma50 : Option (List (Option ℚ)) := none
  sma200 : Option (List (Option ℚ)) := none
  deriving DecidableEq, Repr

/-- `len(df)`: the number of rows. -/
def DataFrame.len (df : DataFrame) : ℕ := df.close.length

/-- `df['Close'].iloc[-1]` (the frames the code reaches are nonempty). -/
def lastClose (df : DataFrame) : ℚ := df.close.getLast?.getD 0

/-- `series.rolling(n).mean()`: entry `i` is the mean of the `n`-window
ending at `i`, `NaN` (`none`) while fewer than `n` values are available. -/
def rollingMean (n : ℕ) (xs : List ℚ) : List (Option ℚ) :=
  (List.range xs.length).map fun i =>
    if n ≤ i + 1 then
      some (qdiv (((xs.drop (i + 1 - n)).take n).foldl qadd 0) (n : ℚ))
    else none

/-- `df['Close'].diff()` without its leading `NaN`: consecutive
differences `x₁ - x₀, x₂ - x₁, ...` (the leading `NaN` never enters the
last 14-window once `len(df) ≥ 60`). -/
def diffs (xs : List ℚ) : List ℚ :=
  List.zipWith qsub (xs.drop 1) xs

/-- Last value of `delta.clip(lower=0).rolling(14).mean()`. -/
def gainLast (xs : List ℚ) : ℚ :=
  qdiv ((((diffs xs).reverse.take 14).map (fun d => qmax d 0)).foldl qadd 0) 14

/-- Last value of `(-delta.clip(upper=0)).rolling(14).mean()`. -/
def lossLast (xs : List ℚ) : ℚ :=
  qdiv ((((diffs xs).reverse.take 14).map (fun d => qmax (qneg d) 0)).foldl qadd 0) 14

/-- `rsi.iloc[-1] > 52` where `rsi = 100 - 100/(1 + gain/loss)`, with
float semantics at `loss = 0`: `gain/0 = inf` gives `rsi = 100` (true)
when `gain > 0`, and `0/0 = NaN` gives a false comparison. -/
def rsiGt52 (xs : List ℚ) : Bool :=
  let g := gainLast xs
  let l := lossLast xs
  if 0 < l then decide ((52 : ℚ) < qsub 100 (qdiv 100 (qadd 1 (qdiv g l))))
  else decide (0 < g)

/-- `series.ewm(span=sp, adjust=False).mean()`: `y₀ = x₀`,
`yᵢ = α xᵢ + (1-α) yᵢ₋₁` with `α = 2/(sp+1)`. -/
def ewmSeries (sp : ℕ) : List ℚ → List ℚ
  | [] => []
  | x :: rest =>
      let a : ℚ := Rat.divInt 2 (Int.ofNat (sp + 1))
      rest.scanl (fun y xi => qadd (qmul a xi) (qmul (qsub 1 a) y)) x

/-- The MACD line: `ema12 - ema26` pointwise. -/
def macdSeries (xs : List ℚ) : List ℚ :=
  List.zipWith qsub (ewmSeries 12 xs) (ewmSeries 26 xs)

/-- `macd.iloc[-1] > signal.iloc[-1]` with `signal = macd.ewm(span=9,
adjust=False).mean()`. -/
def macdBullish (xs : List ℚ) : Bool :=
  let m := macdSeries xs
  decide ((ewmSeries 9 m).getLast?.getD 0 < m.getLast?.getD 0)

/-- `df['Close'].pct_change(22).iloc[-1] > 0.03`, with float semantics
for a zero base price (`x/0` is `±inf`, `0/0` is `NaN`). -/
def mom22Gt (xs : List ℚ) : Bool :=
  let lastc := xs.reverse.headD 0
  let base := (xs.reverse.drop 22).headD 0
  if base = 0 then decide (0 < lastc)
  else decide (Rat.divInt 3 100 < qsub (qdiv lastc base) 1)

/-- `latest.get('SMA50', 0)` where `latest = df.iloc[-1]` was snapshotted
from the frame: a missing column yields the default `0`; a present column
yields its last entry, which may be `NaN` (`none`, comparing false). -/
def snapVal (col : Option (List (Option ℚ))) : Option ℚ :=
  match col with
  | none => some 0
  | some c => (c.getLast?).join

/-- Result of one call to `technical_score`: the returned score and
reasons, and `post`, the state of the caller's frame after the call
(the function assigns `df['SMA50']` and `df['SMA200']` in place). -/
structure TechResult where
  score : ℕ
  reasons : List String
  post : Option DataFrame
  deriving DecidableEq, Repr

/-- `technical_score(df)` (app.py lines 92-139), including its in-place
mutation of `df`.  Crucially, `latest = df.iloc[-1]` is taken *before*
the SMA columns are assigned, so the two moving-average checks read the
pre-assignment row: on a fresh frame `latest.get('SMA50', 0)` and
`latest.get('SMA200', 0)` are both `0`. -/
def technical_run (odf : Option DataFrame) : TechResult :=
  match odf with
  | none => ⟨0, ["Insufficient history"], none⟩
  | some df =>
    if df.len < 60 then ⟨0, ["Insufficient history"], some df⟩
    else
      let latest50 := snapVal df.sma50
      let latest200 := snapVal df.sma200
      let lc := lastClose df
      let df' := { df with sma50 := some (rollingMean 50 df.close),
                           sma200 := some (rollingMean 200 df.close) }
      let c1 := match latest50 with
        | none => false
        | some v => decide (v < lc)
      let c2 := match latest50, latest200 with
        | some a, some b => decide (b < a)
        | _, _ => false
      let c3 := rsiGt52 df.close
      let c4 := macdBullish df.close
      let c5 := mom22Gt df.close
      let score := (if c1 then 1 else 0) + (if c2 then 1 else 0) +
                   (if c3 then 1 else 0) + (if c4 then 1 else 0) +
                   (if c5 then 1 else 0)
      let reasons :=
        (if c1 then [] else ["Below 50 SMA"]) ++
        (if c2 then [] else ["50 SMA below 200 SMA"]) ++
        (if c3 then [] else ["RSI weak (<52)"]) ++
        (if c4 then [] else ["MACD bearish"]) ++
        (if c5 then [] else ["Weak 1M momentum"])
      ⟨min score 5, reasons, some df'⟩

/-- The `(score, reasons)` pair `technical_score` returns. -/
def technical_score (odf : Option DataFrame) : ℕ × List String :=
  ((technical_run odf).score, (technical_run odf).reasons)

/-! ### Company profile (`yf.Ticker(symbol).info`)

Each attribute is optional: `info.get(key, default)` in the code maps to
`Option.getD`.  `get_info` returns `{}` on failure, i.e. every field
`none`.  The code never reads `operatingCashflow`; the field is kept in
the model because the spec claims `risk_score` falls back to it. -/

structure Info where
  returnOnEquity : Option ℚ := none
  revenueGrowth : Option ℚ := none
  profitMargins : Option ℚ := none
  trailingPE : Option ℚ := none
  returnOnAssets : Option ℚ := none
  debtToEquity : Option ℚ := none
  beta : Option ℚ := none
  averageVolume : Option ℚ := none
  operatingCashflow : Option ℚ := none
  deriving DecidableEq, Repr

/-- `fundamental_score(info)` (app.py lines 141-165): five threshold
checks, each missing attribute coerced by `info.get(key, default)` to
`0` (or `999` for trailing P/E). -/
def fundamental_score (info : Info) : ℕ × List String :=
  let roe := info.returnOnEquity.getD 0
  let s1 : ℕ := if Rat.divInt 18 100 < roe then 1 else 0
  let r1 : List String := if Rat.divInt 18 100 < roe then [] else ["ROE <18%"]
  let rev := info.revenueGrowth.getD 0
  let s2 : ℕ := if Rat.divInt 12 100 < rev then 1 else 0
  let r2 : List String := if Rat.divInt 12 100 < rev then [] else ["Sales growth weak"]
  let pm := info.profitMargins.getD 0
  let s3 : ℕ := if Rat.divInt 15 100 < pm then 1 else 0
  let r3 : List String := if Rat.divInt 15 100 < pm then [] else ["Profit margin <15%"]
  let pe := info.trailingPE.getD 999
  let s4 : ℕ := if 8 < pe ∧ pe < 32 then 1 else 0
  let r4 : List String := if 8 < pe ∧ pe < 32 then [] else ["PE out of range"]
  let roa := info.returnOnAssets.getD 0
  let s5 : ℕ := if Rat.divInt 8 100 < roa then 1 else 0
  let r5 : List String := if Rat.divInt 8 100 < roa then [] else ["ROA weak"]
  (s1 + s2 + s3 + s4 + s5, r1 ++ r2 ++ r3 ++ r4 ++ r5)

/-! ### Financial statements (`get_financials`)

`get_financials` returns `(None, None)` on failure and maps an empty
frame to `None` as well (`bs if not bs.empty else None`); the scoring
code re-tests `is not None and not .empty`, so `Option` (`none` =
missing-or-empty) captures both paths. -/

structure BalanceSheet where
  totalCurrentAssets : Option ℚ := none
  totalCurrentLiabilities : Option ℚ := none
  deriving DecidableEq, Repr

structure CashFlow where
  totalCashFromOperatingActivities : Option ℚ := none
  netCashProvidedByOperatingActivities : Option ℚ := none
  deriving DecidableEq, Repr

/-- The operating-cash-flow block of `risk_score` (app.py lines 179-187):
with a statement, the first row key, else the second, else `0`, a point
iff positive; with no statement the block is skipped, contributing no
point and no reason.  The `except:` arm ("CF data missing") guards
exceptions that the modelled happy path cannot raise. -/
def ocfCheck (cf : Option CashFlow) : ℕ × List String :=
  match cf with
  | none => (0, [])
  | some c =>
    let op_cf := c.totalCashFromOperatingActivities.getD
                   (c.netCashProvidedByOperatingActivities.getD 0)
    if 0 < op_cf then (1, []) else (0, ["Negative op. cash flow"])

/-- `risk_score(info, bs, cf)` (app.py lines 167-206). -/
def risk_score (info : Info) (bs : Option BalanceSheet) (cf : Option CashFlow) :
    ℕ × List String :=
  let de := info.debtToEquity.getD 999
  let beta := info.beta.getD 999
  let s1 : ℕ := if de < Rat.divInt 6 10 then 1 else 0
  let r1 : List String :=
    if de < Rat.divInt 6 10 then [] else ["Debt/Equity " ++ fixedStr 1 de]
  let s2 : ℕ := if beta < Rat.divInt 125 100 then 1 else 0
  let r2 : List String :=
    if beta < Rat.divInt 125 100 then []
    else ["Beta " ++ fixedStr 2 beta ++ " (volatile)"]
  let c3 := ocfCheck cf
  let avg_vol := info.averageVolume.getD 0
  let s4 : ℕ := if 200000 < avg_vol then 1 else 0
  let r4 : List String := if 200000 < avg_vol then [] else ["Low liquidity"]
  let c5 : ℕ × List String :=
    match bs with
    | none => (0, [])
    | some b =>
      let cur_assets := b.totalCurrentAssets.getD 0
      let cur_liab := b.totalCurrentLiabilities.getD 0
      if 0 < cur_liab ∧ Rat.divInt 13 10 < qdiv cur_assets cur_liab then (1, [])
      else (0, ["Current ratio weak"])
  (min (s1 + s2 + c3.1 + s4 + c5.1) 5, r1 ++ r2 ++ c3.2 ++ r4 ++ c5.2)

/-! ### Overall probability and the per-symbol record -/

/-- Python's `int()` on a finite float: truncation toward zero, which on
an exact rational is T-division of the numerator by the denominator. -/
def pyInt (q : ℚ) : ℤ := Int.tdiv q.num (q.den : ℤ)

/-- `overall_probability(t, f, r, w_tech, w_fund, w_risk)` (app.py lines
208-212): weighted sum over the weighted maximum as a percentage,
`15` when the weights sum to zero, clamped into `[15, 97]`. -/
def overall_probability (t f r wt wf wr : ℚ) : ℤ :=
  let raw := qadd (qadd (qmul t wt) (qmul f wf)) (qmul r wr)
  let max_possible := qmul 5 (qadd (qadd wt wf) wr)
  let pct := if 0 < max_possible then qmul (qdiv raw max_possible) 100 else 15
  pyInt (qmin (qmax pct 15) 97)

/-- The fields of the dict `analyze` returns that the scoring pipeline
and the scanner read (display-only snapshot fields are omitted).
`reasons` is the list `t_reasons + f_reasons + r_reasons`; `reasonsStr`
its rendering `", ".join(...) or "Excellent on all fronts"`. -/
structure Record where
  symbol : String
  prob : ℤ
  tech : ℕ
  fund : ℕ
  risk : ℕ
  reasons : List String
  reasonsStr : String
  deriving DecidableEq, Repr

/-- `load_price(symbol, period)` (app.py lines 48-54), as a function of
the fetch outcome: `none` is the `except:` path, and a fetched history
shorter than 60 rows is also mapped to `None`. -/
def load_price (fetched : Option DataFrame) : Option DataFrame :=
  match fetched with
  | none => none
  | some df => if 60 ≤ df.len then some df else none

/-- `analyze(symbol, period)` (app.py lines 215-249) as a function of the
three fetch outcomes and the sidebar weights: `None` exactly when
`load_price` returns `None`; otherwise the three sub-scores, the blended
probability, and the concatenated reasons. -/
def analyze (fetched : Option DataFrame) (info : Info) (bs : Option BalanceSheet)
    (cf : Option CashFlow) (wt wf wr : ℚ) (sym : String) : Option Record :=
  match load_price fetched with
  | none => none
  | some df =>
    let t := technical_run (some df)
    let fr := fundamental_score info
    let rr := risk_score info bs cf
    let prob := overall_probability t.score fr.1 rr.1 wt wf wr
    let reasons := t.reasons ++ fr.2 ++ rr.2
    some { symbol := replaceNS sym
           prob := prob
           tech := t.score
           fund := fr.1
           risk := rr.1
           reasons := reasons
           reasonsStr := if reasons.isEmpty then "Excellent on all fronts"
                         else String.intercalate ", " reasons }

/-! ### The scanner loop and result aggregation (tab2, app.py 333-343) -/

/-- The collection step `if r and r["Prob"] >= min_prob:
results.append(r)` over the completed futures. -/
def collectResults (rs : List (Option Record)) (minProb : ℤ) : List Record :=
  rs.filterMap fun o =>
    match o with
    | none => none
    | some r => if minProb ≤ r.prob then some r else none

/-- The sort key of `df.sort_values("Prob", ascending=False)`: `a`
before `b` when `b`'s probability does not exceed `a`'s. -/
def probGE (a b : Record) : Prop := b.prob ≤ a.prob

instance : DecidableRel probGE := fun a b =>
  inferInstanceAs (Decidable (b.prob ≤ a.prob))

instance : IsTotal Record probGE := ⟨fun a b => le_total b.prob a.prob⟩

instance : IsTrans Record probGE := ⟨fun _ _ _ h1 h2 => le_trans h2 h1⟩

/-- `df.sort_values("Prob", ascending=False)`: a sort by probability
descending that keeps arrival order among equal probabilities (the only
sort key the code passes is `"Prob"`). -/
def sortProbDesc (l : List Record) : List Record := List.insertionSort probGE l

/-- The scanner tab's aggregation: collect the analyze results that pass
the minimum-probability filter, then sort by probability descending. -/
def scanOutput (rs : List (Option Record)) (minProb : ℤ) : List Record :=
  sortProbDesc (collectResults rs minProb)

/-! ### Universe resolution (`get_nse_index`, app.py 73-89) -/

/-- One item of the NSE index endpoint's `data` array: its `symbol`
field may be absent (`item.get('symbol')` also treats `""` as falsy). -/
structure IndexItem where
  symbol : Option String
  deriving DecidableEq, Repr

/-- `get_nse_index(index_name)` as a function of the HTTP outcome:
`none` is the `except:` path (an error is displayed and `[]` returned);
a response yields `[item['symbol'] + ".NS" for item in data if
item.get('symbol')]`. -/
def get_nse_index (response : Option (List IndexItem)) : List String :=
  match response with
  | none => []
  | some data =>
    data.filterMap fun it =>
      match it.symbol with
      | none => none
      | some s => if s = "" then none else some (s ++ ".NS")

/-- The scanner's gate `if not STOCK_LIST:` — `true` sends the run to the
"Failed to load index" error path instead of scanning. -/
def scannerGate (stockList : List String) : Bool := stockList.isEmpty

/-! ### Concrete fixtures -/

/-- A 60-row price history with constant close 1: long enough for the
main branch of `technical_score`. -/
def demoDF : DataFrame := { close := List.replicate 60 1 }

/-- A 60-row history of 59 closes at 100 followed by a crash to 1: the
latest close is far below the 50-period moving average (4901/50). -/
def bugDF : DataFrame := { close := List.replicate 59 100 ++ [1] }

/-- `get_info` failure: the empty attribute dictionary `{}`. -/
def emptyInfo : Info := {}

/-- A profile whose five fundamental attributes are all present and
genuinely zero. -/
def zeroFundInfo : Info :=
  { returnOnEquity := some 0, revenueGrowth := some 0, profitMargins := some 0,
    trailingPE := some 0, returnOnAssets := some 0 }

/-- A profile carrying only a positive `operatingCashflow` attribute. -/
def ocfOnlyInfo : Info := { operatingCashflow := some 1000 }

/-- A cash-flow statement with positive operating cash flow. -/
def posCF : CashFlow := { totalCashFromOperatingActivities := some 1000 }

/-- A score record for symbol "A" with probability 60. -/
def recA : Record :=
  { symbol := "A", prob := 60, tech := 3, fund := 2, risk := 2,
    reasons := [], reasonsStr := "Excellent on all fronts" }

/-- A score record for symbol "B" with the same probability 60. -/
def recB : Record :=
  { symbol := "B", prob := 60, tech := 3, fund := 2, risk := 2,
    reasons := [], reasonsStr := "Excellent on all fronts" }

/-- What `analyze` produces on `demoDF` with the empty profile, no
statements, and unit weights. -/
def demoRec : Record :=
  { symbol := "X", prob := 15, tech := 1, fund := 0, risk := 0,
    reasons := ["50 SMA below 200 SMA", "RSI weak (<52)", "MACD bearish",
                "Weak 1M momentum", "ROE <18%", "Sales growth weak",
                "Profit margin <15%", "PE out of range", "ROA weak",
                "Debt/Equity 999.0", "Beta 999.00 (volatile)", "Low liquidity"],
    reasonsStr := "50 SMA below 200 SMA, RSI weak (<52), MACD bearish, " ++
                  "Weak 1M momentum, ROE <18%, Sales growth weak, " ++
                  "Profit margin <15%, PE out of range, ROA weak, " ++
                  "Debt/Equity 999.0, Beta 999.00 (volatile), Low liquidity" }

/-! ### Helper lemmas -/

/-- `pyInt` agrees with the floor on nonnegative arguments. -/
theorem pyInt_eq_floor (q : ℚ) (h : 0 ≤ q) : pyInt q = ⌊q⌋ := by
  rw [pyInt, Rat.floor_def,
      Int.tdiv_eq_ediv (Rat.num_nonneg.mpr h) (by exact_mod_cast Nat.zero_le q.den)]

/-- A frame `load_price` lets through has at least 60 rows. -/
theorem load_price_len (fetched : Option DataFrame) (df : DataFrame)
    (h : load_price fetched = some df) : 60 ≤ df.len := by
  rcases fetched with _ | d
  · simp [load_price] at h
  · simp only [load_price] at h
    split at h
    · cases h; assumption
    · cases h

theorem debt_reason_ne (s : String) :
    "Debt/Equity " ++ s ≠ "Insufficient history" := by
  intro h
  have h1 : ("Debt/Equity " ++ s).data.head? = some 'D' := by
    cases s with
    | mk l => rfl
  rw [h] at h1
  exact absurd h1 (by decide)

theorem beta_reason_ne (s : String) :
    ("Beta " ++ s) ++ " (volatile)" ≠ "Insufficient history" := by
  intro h
  have h1 : (("Beta " ++ s) ++ " (volatile)").data.head? = some 'B' := by
    cases s with
    | mk l => rfl
  rw [h] at h1
  exact absurd h1 (by decide)

theorem insuff_ne_debt (s : String) :
    ("Insufficient history" = "Debt/Equity " ++ s) = False :=
  eq_false fun h => debt_reason_ne s h.symm

theorem insuff_ne_beta (s : String) :
    ("Insufficient history" = ("Beta " ++ s) ++ " (volatile)") = False :=
  eq_false fun h => beta_reason_ne s h.symm

/-- `fundamental_score` never produces the insufficient-history reason. -/
theorem insuff_not_mem_fund (info : Info) :
    "Insufficient history" ∉ (fundamental_score info).2 := by
  simp only [fundamental_score]
  split_ifs <;> simp

/-- `risk_score` never produces the insufficient-history reason. -/
theorem insuff_not_mem_risk (info : Info) (bs : Option BalanceSheet)
    (cf : Option CashFlow) :
    "Insufficient history" ∉ (risk_score info bs cf).2 := by
  rcases bs with _ | b <;> rcases cf with _ | c <;>
    simp only [risk_score, ocfCheck] <;> split_ifs <;>
    simp [insuff_ne_debt, insuff_ne_beta]

/-- On a frame of at least 60 rows the insufficient-history branch of
`technical_score` is not taken and its reason cannot appear. -/
theorem insuff_not_mem_tech (df : DataFrame) (h : 60 ≤ df.len) :
    "Insufficient history" ∉ (technical_run (some df)).reasons := by
  simp only [technical_run]
  rw [if_neg (Nat.not_lt.mpr h)]
  split_ifs <;> simp

/-! ### Claim theorems -/

/-- C1: for sub-scores in `[0, 5]` and weights in `[0, 1]` (sum-zero
triple included), `overall_probability` stays inside the code's
floor/ceiling band `[15, 97]`. -/
theorem overall_probability_in_band (t f r wt wf wr : ℚ)
    (ht0 : 0 ≤ t) (ht5 : t ≤ 5) (hf0 : 0 ≤ f) (hf5 : f ≤ 5)
    (hr0 : 0 ≤ r) (hr5 : r ≤ 5)
    (hwt0 : 0 ≤ wt) (hwt1 : wt ≤ 1) (hwf0 : 0 ≤ wf) (hwf1 : wf ≤ 1)
    (hwr0 : 0 ≤ wr) (hwr1 : wr ≤ 1) :
    15 ≤ overall_probability t f r wt wf wr ∧
      overall_probability t f r wt wf wr ≤ 97 := by
  have key : ∀ pct : ℚ,
      15 ≤ pyInt (qmin (qmax pct 15) 97) ∧ pyInt (qmin (qmax pct 15) 97) ≤ 97 := by
    intro pct
    rw [qmin_eq, qmax_eq]
    have h1 : (15 : ℚ) ≤ min (max pct 15) 97 :=
      le_min (le_max_right _ _) (by norm_num)
    have h2 : min (max pct 15) 97 ≤ 97 := min_le_right _ _
    have h0 : (0 : ℚ) ≤ min (max pct 15) 97 := le_trans (by norm_num) h1
    rw [pyInt_eq_floor _ h0]
    refine ⟨Int.le_floor.mpr (by exact_mod_cast h1), ?_⟩
    have h3 := Int.floor_le_floor h2
    simpa using h3
  simp only [overall_probability]
  exact key _

/-- C1 witness: the all-zero sub-scores with the all-zero weight triple
land on the floor of the band. -/
theorem overall_probability_in_band_witness :
    15 ≤ overall_probability 0 0 0 0 0 0 ∧ overall_probability 0 0 0 0 0 0 ≤ 97 :=
  overall_probability_in_band 0 0 0 0 0 0 (by norm_num) (by norm_num)
    (by norm_num) (by norm_num) (by norm_num) (by norm_num) (by norm_num)
    (by norm_num) (by norm_num) (by norm_num) (by norm_num) (by norm_num)

/-- C2: on an absent history or one shorter than 60 rows,
`technical_score` returns score 0 with the single reason
"Insufficient history", and the input frame is left untouched. -/
theorem technical_score_insufficient_history (odf : Option DataFrame)
    (h : odf = none ∨ ∃ df, odf = some df ∧ df.len < 60) :
    technical_score odf = (0, ["Insufficient history"]) ∧
      (technical_run odf).post = odf := by
  rcases h with h | ⟨df, rfl, hlen⟩
  · subst h; exact ⟨rfl, rfl⟩
  · simp [technical_score, technical_run, hlen]

/-- C2 witness: the absent history. -/
theorem technical_score_insufficient_history_witness :
    technical_score none = (0, ["Insufficient history"]) ∧
      (technical_run none).post = none :=
  technical_score_insufficient_history none (Or.inl rfl)

set_option maxRecDepth 100000 in
/-- C3: on `bugDF` (a fresh frame, latest close 1 far below its
50-period moving average 4901/50) the code still awards the
price-above-SMA50 point — no "Below 50 SMA" reason — because the last
row was snapshotted before the SMA columns were assigned, and the
SMA50-above-SMA200 point is never awarded (the snapshot comparison is
`0 > 0`), so its reason always appears. -/
theorem technical_score_sma_checks_broken :
    bugDF.sma50 = none ∧ bugDF.sma200 = none ∧
    (rollingMean 50 bugDF.close).getLast?.join = some (Rat.divInt 4901 50) ∧
    lastClose bugDF < Rat.divInt 4901 50 ∧
    "Below 50 SMA" ∉ (technical_score (some bugDF)).2 ∧
    "50 SMA below 200 SMA" ∈ (technical_score (some bugDF)).2 := by
  decide

/-- C4 counterexample: a profile with every fundamental attribute
missing scores exactly like one whose attributes are present and zero —
the same sub-score and the very same reason strings, none of which says
the data is unavailable — so absence is silently coerced and is not
distinguishable in the reasons. -/
theorem fundamental_missing_indistinguishable :
    fundamental_score emptyInfo = fundamental_score zeroFundInfo ∧
    fundamental_score emptyInfo =
      (0, ["ROE <18%", "Sales growth weak", "Profit margin <15%",
           "PE out of range", "ROA weak"]) := by
  decide

/-- The coercion `info.get(key, default)` applies: every missing
fundamental attribute behaves exactly as the default (0, or 999 for
trailing P/E). -/
def fillFundDefaults (i : Info) : Info :=
  { i with returnOnEquity := some (i.returnOnEquity.getD 0),
           revenueGrowth := some (i.revenueGrowth.getD 0),
           profitMargins := some (i.profitMargins.getD 0),
           trailingPE := some (i.trailingPE.getD 999),
           returnOnAssets := some (i.returnOnAssets.getD 0) }

/-- C4 amended: a missing fundamental attribute is coerced to the
default (0, or 999 for P/E), fails the same threshold check as that
default value and yields the generic threshold reason — the all-missing
profile gets sub-score 0 with the five generic reasons and no
"unavailable" wording. -/
theorem fundamental_missing_coerced_to_default (i : Info) :
    fundamental_score i = fundamental_score (fillFundDefaults i) ∧
    fundamental_score emptyInfo =
      (0, ["ROE <18%", "Sales growth weak", "Profit margin <15%",
           "PE out of range", "ROA weak"]) :=
  ⟨rfl, by decide⟩

/-- C5 counterexample: with the cash-flow statement unavailable and the
profile's `operatingCashflow` positive, `risk_score` neither awards the
operating-cash-flow point nor records a reason — the profile field is
not consulted; supplying the statement is what yields the point. -/
theorem risk_ocf_no_profile_fallback_cex :
    ocfOnlyInfo.operatingCashflow = some 1000 ∧
    risk_score ocfOnlyInfo none none =
      (0, ["Debt/Equity 999.0", "Beta 999.00 (volatile)", "Low liquidity"]) ∧
    risk_score ocfOnlyInfo none (some posCF) =
      (1, ["Debt/Equity 999.0", "Beta 999.00 (volatile)", "Low liquidity"]) := by
  decide

/-- C5 amended: the operating-cash-flow point is decided by the
statement alone — present: a point iff the statement's operating cash
flow (first key, else second key, else 0) is positive, otherwise the
reason; absent: the check is skipped with no point and no reason; the
profile's operating-cashflow field is never read. -/
theorem risk_ocf_statement_only (info : Info) (bs : Option BalanceSheet)
    (ocf : Option ℚ) (c : CashFlow) :
    risk_score { info with operatingCashflow := ocf } bs none =
      risk_score info bs none ∧
    ocfCheck none = (0, []) ∧
    ocfCheck (some c) =
      (if 0 < c.totalCashFromOperatingActivities.getD
            (c.netCashProvidedByOperatingActivities.getD 0)
       then (1, []) else (0, ["Negative op. cash flow"])) ∧
    (risk_score info bs (some c)).1 =
      (risk_score info bs none).1 + (ocfCheck (some c)).1 := by
  refine ⟨rfl, rfl, rfl, ?_⟩
  rcases bs with _ | b <;>
    simp only [risk_score, ocfCheck] <;> split_ifs <;> simp

/-- C6 counterexample: two records with the same probability arrive as
B then A; the scanner's sort keys only on probability, so the output
keeps B before A — not ascending by symbol name. -/
theorem scan_sort_no_symbol_tiebreak_cex :
    recB.prob = recA.prob ∧
    (scanOutput [some recB, some recA] 50).map Record.symbol = ["B", "A"] := by
  decide

/-- C6 amended: the scanner output contains exactly the records whose
probability is at or above the threshold and is sorted descending by
probability; equal probabilities keep arrival order - there is no
tie-break on symbol name (and arrival order of the thread pool is not
deterministic). -/
theorem scan_output_filter_sorted (rs : List (Option Record)) (m : ℤ) :
    (scanOutput rs m).Sorted probGE ∧
    ∀ r : Record, r ∈ scanOutput rs m ↔ some r ∈ rs ∧ m ≤ r.prob := by
  constructor
  · exact List.sorted_insertionSort probGE _
  · intro r
    rw [scanOutput, sortProbDesc, (List.perm_insertionSort probGE _).mem_iff]
    simp only [collectResults, List.mem_filterMap]
    constructor
    · rintro ⟨o, ho, hf⟩
      rcases o with _ | x
      · cases hf
      · by_cases hm : m ≤ x.prob
        · simp only [hm, if_true] at hf
          obtain rfl := Option.some.inj hf
          exact ⟨ho, hm⟩
        · simp [hm] at hf
    · rintro ⟨hmem, hm⟩
      exact ⟨some r, hmem, by simp [hm]⟩

/-- C7: `analyze` returns `None` exactly when `load_price` does, i.e.
exactly when the price history is unavailable or shorter than 60 rows —
missing profile or statements do not exclude a symbol — and a produced
record survives the scanner's filter iff its probability meets the
threshold. -/
theorem analyze_price_only_hard_requirement (fetched : Option DataFrame)
    (info : Info) (bs : Option BalanceSheet) (cf : Option CashFlow)
    (wt wf wr : ℚ) (sym : String) (m : ℤ) :
    ((analyze fetched info bs cf wt wf wr sym = none) ↔
        load_price fetched = none) ∧
    (load_price fetched = none ↔
        ∀ df : DataFrame, fetched = some df → df.len < 60) ∧
    (∀ r : Record, analyze fetched info bs cf wt wf wr sym = some r →
        (r ∈ collectResults [analyze fetched info bs cf wt wf wr sym] m ↔
          m ≤ r.prob)) := by
  refine ⟨?_, ?_, ?_⟩
  · cases h : load_price fetched <;> simp [analyze, h]
  · rcases fetched with _ | df
    · simp [load_price]
    · simp only [load_price]
      by_cases h : 60 ≤ df.len
      · rw [if_pos h]
        simp
        omega
      · rw [if_neg h]
        simp
        omega
  · intro r hr
    by_cases hm : m ≤ r.prob <;> simp [collectResults, hr, hm]

/-- C8 counterexample: when the NSE provider fails, universe resolution
returns the empty list — there is no non-empty static fallback. -/
theorem universe_failure_empty_cex : (get_nse_index none).isEmpty = true := by
  decide

/-- C8 amended: on provider failure `get_nse_index` displays an error
and returns `[]`; the scanner detects the empty list and reports
"Failed to load index" instead of scanning — failure is signalled by
the empty return value and UI messages, not by a degraded-mode flag or
a fallback list. -/
theorem universe_failure_empty_and_gated :
    get_nse_index none = [] ∧
    scannerGate (get_nse_index none) = true ∧
    get_nse_index (some [⟨some "RELIANCE"⟩]) = ["RELIANCE.NS"] ∧
    scannerGate (get_nse_index (some [⟨some "RELIANCE"⟩])) = false := by
  decide

set_option maxRecDepth 100000 in
/-- C9 counterexample: `technical_score` mutates its input — `demoDF`
comes in without SMA columns and the frame after the call is not the
frame that was passed in. -/
theorem technical_score_mutates_input_cex :
    demoDF.sma50 = none ∧ demoDF.sma200 = none ∧
    (technical_run (some demoDF)).post ≠ some demoDF := by
  decide

/-- C9 amended: `technical_score` is deterministic and does no I/O, but
on a frame passing the length check it writes the `SMA50` and `SMA200`
columns into its argument; the close prices (and row count) are
unchanged. -/
theorem technical_score_mutation_exact (df : DataFrame) :
    (technical_run (some df)).post =
      some (if df.len < 60 then df
            else { df with sma50 := some (rollingMean 50 df.close),
                           sma200 := some (rollingMean 200 df.close) }) ∧
    ((technical_run (some df)).post.map fun d => d.close) = some df.close := by
  by_cases h : df.len < 60 <;> simp [technical_run, h]

/-- C10: every record `analyze` produces was built from a history of at
least 60 rows (`load_price` filters shorter ones to `None` and `analyze`
aborts on `None`), so the insufficient-history branch is unreachable and
its reason string never occurs among a record's reasons (hence not in
the joined "Reasons" field either, which is exactly the join of this
list). -/
theorem insufficient_history_unreachable_from_analyze
    (fetched : Option DataFrame) (info : Info) (bs : Option BalanceSheet)
    (cf : Option CashFlow) (wt wf wr : ℚ) (sym : String) (r : Record)
    (h : analyze fetched info bs cf wt wf wr sym = some r) :
    "Insufficient history" ∉ r.reasons := by
  rcases hl : load_price fetched with _ | df
  · rw [analyze, hl] at h
    cases h
  · rw [analyze, hl] at h
    obtain rfl := Option.some.inj h
    simp only [List.mem_append, not_or]
    exact ⟨⟨insuff_not_mem_tech df (load_price_len _ _ hl),
            insuff_not_mem_fund info⟩,
           insuff_not_mem_risk info bs cf⟩

set_option maxRecDepth 100000 in
/-- C10 witness: the 60-row demo frame with the empty profile. -/
theorem insufficient_history_unreachable_witness :
    "Insufficient history" ∉ demoRec.reasons :=
  insufficient_history_unreachable_from_analyze (some demoDF) emptyInfo none
    none 1 1 1 "X.NS" demoRec (by decide)

end NiftyScanner
